import Mathlib

/-!
Verification of the MySQL Data Uploading Portal core (`app.py`) against its
natural-language specification.

The development shallowly embeds the two classes that carry the design
content of the repository:

* `DataTypeHandler` (`type_mapping`, `infer_mysql_type`, `_infer_string_type`,
  `_infer_numeric_type`) — pandas series are modelled by `Series`: the
  `str(series.dtype)` string, the results of the two pandas dtype predicates
  the code consults (`pd.api.types.is_numeric_dtype`,
  `pd.api.types.is_integer_dtype`), and the observed values.  Numeric values
  are modelled exactly as rationals (`ℚ`); `float(x).is_integer()` becomes
  `x.den = 1`.  Null entries (None / NaN / NaT) are the `Cell.null`
  constructor.
* `MySQLDataUploader` (`create_table`, `insert_data`, `_prepare_value`) —
  the database backend is an oracle `fails : ℕ → Option String` giving, per
  batch start index, the `mysql.connector.Error` text raised by
  `executemany`/`commit` for that batch (or `none`).  Python exceptions are
  `Except String`: a `mysql.connector.Error` raised by the backend is caught
  by the `except Error` clause and turned into a flag (modelled inside
  `run_batches`), while any other exception class (e.g. the `ValueError`
  raised by `if pd.isna(value)` on a list-valued cell) passes the
  `except Error` clause and escapes `insert_data` as `Except.error`.
-/

namespace MySQLUpload

/-- One cell of a pandas column as seen by the type-inference code:
a null entry (None/NaN/NaT), a numeric value (modelled exactly as a
rational), or a string value. -/
inductive Cell where
  | null : Cell
  | num : ℚ → Cell
  | str : String → Cell
deriving DecidableEq, Repr

/-- `series.isnull()` per cell. -/
def Cell.isNull : Cell → Bool
  | Cell.null => true
  | _ => false

/-- `str(x)` of a non-null cell, as used by `_infer_string_type`. -/
def Cell.toStr : Cell → String
  | Cell.null => "nan"
  | Cell.num q => toString q
  | Cell.str s => s

/-- Numeric payload of a cell (only consulted on the numeric path, where
every non-null cell is `Cell.num`). -/
def cellNum : Cell → ℚ
  | Cell.num q => q
  | _ => 0

/-- A pandas `Series` as consulted by `DataTypeHandler`: the dtype string and
the two pandas dtype predicates the source calls, plus the values.
pandas dtypes form an open set (extension dtypes such as `Int64`/`Float64`
exist besides the ones listed in `type_mapping`), so the predicate results
are carried as fields. -/
structure Series where
  dtype : String
  numericDtype : Bool
  integerDtype : Bool
  values : List Cell
deriving DecidableEq, Repr

/-- `series.dropna()`. -/
def dropna (vs : List Cell) : List Cell :=
  vs.filter (fun c => !c.isNull)

/-- `DataTypeHandler.type_mapping` (app.py lines 15-35), in source order. -/
def type_mapping : List (String × String) :=
  [("int8", "TINYINT"),
   ("int16", "SMALLINT"),
   ("int32", "INT"),
   ("int64", "BIGINT"),
   ("uint8", "TINYINT UNSIGNED"),
   ("uint16", "SMALLINT UNSIGNED"),
   ("uint32", "INT UNSIGNED"),
   ("uint64", "BIGINT UNSIGNED"),
   ("float32", "FLOAT"),
   ("float64", "DOUBLE"),
   ("decimal", "DECIMAL(65,30)"),
   ("object", "TEXT"),
   ("string", "TEXT"),
   ("category", "VARCHAR(255)"),
   ("bool", "BOOLEAN"),
   ("datetime64[ns]", "DATETIME"),
   ("datetime64[ns, UTC]", "DATETIME"),
   ("timedelta64[ns]", "TIME"),
   ("date", "DATE")]

/-- `DataTypeHandler._infer_string_type` (app.py lines 56-68). -/
def _infer_string_type (s : Series) : String :=
  let non_null_values := dropna s.values
  if non_null_values.length = 0 then "TEXT"
  else
    let max_length := (non_null_values.map (fun c => c.toStr.length)).foldl max 0
    if max_length ≤ 255 then "VARCHAR(" ++ toString max_length ++ ")"
    else if max_length ≤ 65535 then "TEXT"
    else if max_length ≤ 16777215 then "MEDIUMTEXT"
    else "LONGTEXT"

/-- `min()` of a pandas series (nonempty on every reachable path;
the `[]` default is never consulted by the embedded code). -/
def list_min : List ℚ → ℚ
  | [] => 0
  | q :: qs => qs.foldl min q

/-- `max()` of a pandas series (nonempty on every reachable path). -/
def list_max : List ℚ → ℚ
  | [] => 0
  | q :: qs => qs.foldl max q

/-- The non-null values of the series viewed as rationals:
`non_null_values = series.dropna()` on the numeric path. -/
def non_null_nums (s : Series) : List ℚ :=
  (dropna s.values).map cellNum

/-- `DataTypeHandler._infer_numeric_type` (app.py lines 70-95). -/
def _infer_numeric_type (s : Series) : String :=
  if s.values.all Cell.isNull then "DOUBLE"
  else
    let non_null := non_null_nums s
    if s.integerDtype || non_null.all (fun q => q.den == 1) then
      let min_val := list_min non_null
      let max_val := list_max non_null
      if 0 ≤ min_val then
        if max_val ≤ 255 then "TINYINT UNSIGNED"
        else if max_val ≤ 65535 then "SMALLINT UNSIGNED"
        else if max_val ≤ 4294967295 then "INT UNSIGNED"
        else "BIGINT UNSIGNED"
      else
        if -128 ≤ min_val ∧ max_val ≤ 127 then "TINYINT"
        else if -32768 ≤ min_val ∧ max_val ≤ 32767 then "SMALLINT"
        else if -2147483648 ≤ min_val ∧ max_val ≤ 2147483647 then "INT"
        else "BIGINT"
    else "DOUBLE"

/-- `DataTypeHandler.infer_mysql_type` (app.py lines 37-54).  Note that the
`type_mapping` membership test precedes the `['object', 'string']` dispatch,
exactly as in the source. -/
def infer_mysql_type (s : Series) : String :=
  let dtype_str := s.dtype
  if dtype_str = "datetime64[ns]" ∨ dtype_str = "datetime64[ns, UTC]" then "DATETIME"
  else if dtype_str = "timedelta64[ns]" then "TIME"
  else if dtype_str = "date" then "DATE"
  else
    match type_mapping.lookup dtype_str with
    | some t => t
    | none =>
      if dtype_str = "object" ∨ dtype_str = "string" then _infer_string_type s
      else if s.numericDtype then _infer_numeric_type s
      else "TEXT"

/-- `re.sub(r'[^\w]', '_', col.lower())` (app.py line 121): lowercase, then
replace each single character matching `[^\w]` by one underscore.  Word
characters are modelled as ASCII alphanumerics plus underscore (Python's
`\w` on the identifiers in scope); `str.lower`/`re.sub` both act
character-by-character here, so the two passes compose into one map. -/
def clean_column (col : String) : String :=
  String.mk (col.data.map (fun c =>
    let lc := c.toLower
    if lc.isAlphanum || lc = '_' then lc else '_'))

/-- Whether a (lowercased) character is a word character for `\w`. -/
def wordChar (c : Char) : Bool :=
  c.isAlphanum || c = '_'

/-- Modelled from the spec: lowercase the identifier and replace every
*maximal run* of consecutive non-word characters with a single underscore.
This is the operation the claim attributes to the code; it exists only for
comparison with `clean_column`. -/
def collapse_runs (col : String) : String :=
  let step : (Bool × List Char) → Char → (Bool × List Char) := fun p c =>
    let lc := c.toLower
    if wordChar lc then (false, lc :: p.2)
    else if p.1 then (true, p.2) else (true, '_' :: p.2)
  String.mk ((col.data.foldl step (false, [])).2.reverse)

/-- A pandas DataFrame as consumed by `MySQLDataUploader`: the ordered
columns, each a name paired with its series.  (`df.columns` assignment in
`create_table` mutates this structure in place; the embedding returns the
post-mutation DataFrame.) -/
structure DataFrame where
  cols : List (String × Series)
deriving DecidableEq, Repr

/-- The `column_defs` list of `create_table` (app.py lines 123-126):
one `"<col> <mysql_type>"` string per column, in column order. -/
def column_defs (df : DataFrame) : List String :=
  df.cols.map (fun p => p.1 ++ " " ++ infer_mysql_type p.2)

/-- The `create_query` f-string of `create_table` (app.py lines 127-131),
including the literal whitespace of the triple-quoted string: a leading
newline, 16 spaces before `CREATE`, 20 before the column definitions,
16 before the closing parenthesis and 12 trailing spaces. -/
def create_query (table_name : String) (defs : List String) : String :=
  "\n                CREATE TABLE IF NOT EXISTS " ++ table_name ++
    " (\n                    " ++ String.intercalate ", " defs ++
    "\n                ) ENGINE=InnoDB DEFAULT CHARSET=utf8mb4 COLLATE=utf8mb4_unicode_ci\n            "

/-- Modelled from the spec: the `CREATE TABLE` statement shape the claim
says is reproduced bit-for-bit — header line, newline, four-space-indented
comma-separated column definitions, newline, footer line. -/
def create_query_claimed (table_name : String) (defs : List String) : String :=
  "CREATE TABLE IF NOT EXISTS " ++ table_name ++ " (\n    " ++
    String.intercalate ", " defs ++
    "\n) ENGINE=InnoDB DEFAULT CHARSET=utf8mb4 COLLATE=utf8mb4_unicode_ci"

/-- `MySQLDataUploader.create_table` (app.py lines 119-137), up to the
backend call: `df.columns = clean_columns` rewrites the column names in
place (first component of the result = the DataFrame the caller now holds),
and the `CREATE TABLE` statement is built from the rewritten names.  The
`cursor.execute`/`commit`/`except Error` tail performs no further
computation on the table or the query. -/
def create_table (table_name : String) (df : DataFrame) : DataFrame × String :=
  let df2 : DataFrame := ⟨df.cols.map (fun p => (clean_column p.1, p.2))⟩
  (df2, create_query table_name (column_defs df2))

/-- A Python value as it appears in a DataFrame row handed to
`_prepare_value` (app.py lines 160-178): None, a float NaN, a
datetime/Timestamp, a date, a Decimal, numpy integer and floating scalars,
plain Python int/float/bool/str, and structured list/dict values.
Numeric payloads are modelled exactly as `ℤ`/`ℚ`. -/
inductive PyVal where
  | none : PyVal
  | nan : PyVal
  | dt (y mo d h mi s : ℕ) : PyVal
  | date (y mo d : ℕ) : PyVal
  | dec (q : ℚ) : PyVal
  | npint (n : ℤ) : PyVal
  | npfloat (q : ℚ) : PyVal
  | pyint (n : ℤ) : PyVal
  | pyfloat (q : ℚ) : PyVal
  | pybool (b : Bool) : PyVal
  | pystr (s : String) : PyVal
  | pylist (es : List PyVal) : PyVal
  | pydict (es : List (String × PyVal)) : PyVal
deriving Repr

/-- `pd.isna` on a scalar value. -/
def is_na_scalar : PyVal → Bool
  | PyVal.none => true
  | PyVal.nan => true
  | _ => false

/-- The combined effect of `if pd.isna(value):` (app.py line 164).  On a
scalar this is a boolean; on a list `pd.isna` returns an elementwise numpy
array whose use in `if` raises `ValueError` when it has more than one
element (a one-element array coerces to the truth value of its entry).
That `ValueError` is not a `mysql.connector.Error`. -/
def pd_isna (v : PyVal) : Except String Bool :=
  match v with
  | PyVal.pylist [] => Except.ok false
  | PyVal.pylist [e] => Except.ok (is_na_scalar e)
  | PyVal.pylist _ =>
      Except.error "ValueError: The truth value of an array with more than one element is ambiguous. Use a.any() or a.all()"
  | w => Except.ok (is_na_scalar w)

/-- Zero-padded two-digit field of `strftime`. -/
def pad2 (n : ℕ) : String :=
  if n < 10 then "0" ++ toString n else toString n

/-- Zero-padded four-digit `%Y` field of `strftime`. -/
def pad4 (n : ℕ) : String :=
  if n < 10 then "000" ++ toString n
  else if n < 100 then "00" ++ toString n
  else if n < 1000 then "0" ++ toString n
  else toString n

/-- `value.strftime('%Y-%m-%d %H:%M:%S')`. -/
def fmt_datetime (y mo d h mi s : ℕ) : String :=
  pad4 y ++ "-" ++ pad2 mo ++ "-" ++ pad2 d ++ " " ++ pad2 h ++ ":" ++ pad2 mi ++ ":" ++ pad2 s

/-- `value.strftime('%Y-%m-%d')`. -/
def fmt_date (y mo d : ℕ) : String :=
  pad4 y ++ "-" ++ pad2 mo ++ "-" ++ pad2 d

mutual

/-- `json.dumps` on the list/dict values in scope (string escaping and
non-JSON-serialisable members are outside the claims and not modelled
beyond the canonical shape). -/
def json_of : PyVal → String
  | PyVal.none => "null"
  | PyVal.nan => "NaN"
  | PyVal.dt y mo d h mi s => fmt_datetime y mo d h mi s
  | PyVal.date y mo d => fmt_date y mo d
  | PyVal.dec q => toString q
  | PyVal.npint n => toString n
  | PyVal.npfloat q => toString q
  | PyVal.pyint n => toString n
  | PyVal.pyfloat q => toString q
  | PyVal.pybool b => if b then "true" else "false"
  | PyVal.pystr s => "\"" ++ s ++ "\""
  | PyVal.pylist es => "[" ++ json_of_list es ++ "]"
  | PyVal.pydict es => "\x7b" ++ json_of_entries es ++ "\x7d"

/-- Comma-joined JSON of a list's elements. -/
def json_of_list : List PyVal → String
  | [] => ""
  | [e] => json_of e
  | e :: es => json_of e ++ ", " ++ json_of_list es

/-- Comma-joined JSON of a dict's entries. -/
def json_of_entries : List (String × PyVal) → String
  | [] => ""
  | [(k, v)] => "\"" ++ k ++ "\": " ++ json_of v
  | (k, v) :: es => "\"" ++ k ++ "\": " ++ json_of v ++ ", " ++ json_of_entries es

end

/-- `MySQLDataUploader._prepare_value` (app.py lines 160-178).  The
`isinstance` cascade is mirrored in source order; the result is
`Except.error` exactly when the Python code raises an exception that is not
a `mysql.connector.Error` (the `ValueError` from `pd.isna` on a
multi-element list). -/
def _prepare_value (value : PyVal) : Except String PyVal :=
  match pd_isna value with
  | Except.error e => Except.error e
  | Except.ok true => Except.ok PyVal.none
  | Except.ok false =>
    match value with
    | PyVal.dt y mo d h mi s => Except.ok (PyVal.pystr (fmt_datetime y mo d h mi s))
    | PyVal.date y mo d => Except.ok (PyVal.pystr (fmt_date y mo d))
    | PyVal.dec q => Except.ok (PyVal.pyfloat q)
    | PyVal.npint n => Except.ok (PyVal.pyint n)
    | PyVal.npfloat q => Except.ok (PyVal.pyfloat q)
    | PyVal.pydict es => Except.ok (PyVal.pystr (json_of (PyVal.pydict es)))
    | PyVal.pylist es => Except.ok (PyVal.pystr (json_of (PyVal.pylist es)))
    | v => Except.ok v

/-- Total version of `_prepare_value`, used to describe the values a
successfully prepared batch contains. -/
def prep (v : PyVal) : PyVal :=
  match _prepare_value v with
  | Except.ok w => w
  | Except.error _ => PyVal.none

/-- The cell's `_prepare_value` call returns normally. -/
def coerces (v : PyVal) : Bool :=
  (_prepare_value v).isOk

/-- Every cell of the row normalizes without raising. -/
def row_ok (row : List PyVal) : Prop :=
  ∀ v ∈ row, coerces v = true

/-- Every cell of every row normalizes without raising. -/
def rows_ok (rows : List (List PyVal)) : Prop :=
  ∀ r ∈ rows, row_ok r

instance (row : List PyVal) : Decidable (row_ok row) :=
  inferInstanceAs (Decidable (∀ v ∈ row, coerces v = true))

instance (rows : List (List PyVal)) : Decidable (rows_ok rows) :=
  inferInstanceAs (Decidable (∀ r ∈ rows, row_ok r))

/-- `tuple(self._prepare_value(val) for val in row)` (app.py line 149):
left to right, the first exception propagates. -/
def prepare_row : List PyVal → Except String (List PyVal)
  | [] => Except.ok []
  | v :: vs =>
    match _prepare_value v with
    | Except.error e => Except.error e
    | Except.ok w =>
      match prepare_row vs with
      | Except.error e => Except.error e
      | Except.ok ws => Except.ok (w :: ws)

/-- The `values` list comprehension over one batch (app.py line 149). -/
def prepare_batch : List (List PyVal) → Except String (List (List PyVal))
  | [] => Except.ok []
  | r :: rs =>
    match prepare_row r with
    | Except.error e => Except.error e
    | Except.ok pr =>
      match prepare_batch rs with
      | Except.error e => Except.error e
      | Except.ok prs => Except.ok (pr :: prs)

/-- The start indices produced by `range(0, total_rows, batch_size)`
(app.py line 147): `0, B, 2B, ...` while below `N`, i.e. `⌈N/B⌉` of them. -/
def batch_starts (N B : ℕ) : List ℕ :=
  (List.range ((N + B - 1) / B)).map (· * B)

/-- The batch slices `df.iloc[i:i + batch_size]` (app.py line 148), in
submission order. -/
def batches {α : Type} (B : ℕ) (rows : List α) : List (List α) :=
  (batch_starts rows.length B).map (fun i => (rows.drop i).take B)

/-- The progress value computed after the batch starting at row `i`
(app.py line 152): `min(1.0, (i + batch_size) / total_rows)`, with the
Python float division modelled exactly in `ℚ`. -/
def batch_progress (N B i : ℕ) : ℚ :=
  min 1 (((i + B : ℕ) : ℚ) / (N : ℚ))

/-- Observable outcome of one `insert_data` call: the start indices of the
batches for which `executemany` was invoked, the prepared batches whose
commit succeeded (in order), the values passed to
`progress_bar.progress`, the `st.error` diagnostic if one was shown, and
the returned boolean. -/
structure InsertTrace where
  attempted : List ℕ
  committed : List (List (List PyVal))
  progressCalls : List ℚ
  diagnostic : Option String
  success : Bool
deriving Repr

/-- The `for i in range(0, total_rows, batch_size)` loop of `insert_data`
(app.py lines 147-153) over a list of batch start indices.  `fails i` is
the `mysql.connector.Error` text raised by `executemany`/`commit` for the
batch starting at `i` (if any); such an error is caught by the
`except Error` clause (first component `some diagnostic` of the result),
whereas an exception raised by `_prepare_value` is not caught and
propagates (`Except.error`). -/
def run_batches (fails : ℕ → Option String) (rows : List (List PyVal)) (N B : ℕ) :
    List ℕ → Except String (Option String × List ℕ × List (List (List PyVal)) × List ℚ)
  | [] => Except.ok (none, [], [], [])
  | i :: rest =>
    match prepare_batch ((rows.drop i).take B) with
    | Except.error e => Except.error e
    | Except.ok values =>
      match fails i with
      | some e => Except.ok (some ("⚠️ Data Insertion Error: " ++ e), [i], [], [])
      | none =>
        match run_batches fails rows N B rest with
        | Except.error e => Except.error e
        | Except.ok (diag, att, comm, progs) =>
          Except.ok (diag, i :: att, values :: comm, batch_progress N B i :: progs)

/-- `MySQLDataUploader.insert_data` (app.py lines 139-158) with
`batch_size = 1000`.  On the success path the final
`progress_bar.progress(1.0)` (line 154) appends one more emission and the
method returns `True`; a caught backend error yields the `st.error`
diagnostic and `False`; an uncaught exception is `Except.error`. -/
def insert_data (fails : ℕ → Option String) (rows : List (List PyVal)) :
    Except String InsertTrace :=
  match run_batches fails rows rows.length 1000 (batch_starts rows.length 1000) with
  | Except.error e => Except.error e
  | Except.ok (some d, att, comm, progs) => Except.ok ⟨att, comm, progs, some d, false⟩
  | Except.ok (none, att, comm, progs) => Except.ok ⟨att, comm, progs ++ [1], none, true⟩

/-- The series falls through to `_infer_numeric_type`: its dtype string is
not a `type_mapping` key (the three datetime/timedelta/date tests of
lines 42-47 are then automatically false, those strings being mapping
keys) and `pd.api.types.is_numeric_dtype` holds. -/
def numeric_route (s : Series) : Prop :=
  type_mapping.lookup s.dtype = none ∧ s.numericDtype = true

/-- The cell is an integral numeric value within `[lo, hi]`. -/
def cell_int_in (lo hi : ℚ) (c : Cell) : Bool :=
  match c with
  | Cell.num q => q.den == 1 && decide (lo ≤ q) && decide (q ≤ hi)
  | _ => false

/-- The cell is an integral numeric value (`float(x).is_integer()`). -/
def cell_int (c : Cell) : Bool :=
  match c with
  | Cell.num q => q.den == 1
  | _ => false

/-- The cell is a numeric value. -/
def cell_isnum (c : Cell) : Bool :=
  match c with
  | Cell.num _ => true
  | _ => false

/-- The cell is a numeric value with non-zero fractional part. -/
def cell_frac (c : Cell) : Bool :=
  match c with
  | Cell.num q => !(q.den == 1)
  | _ => false

/-- Modelled from the spec: the unsigned boundary table of §4.1 rule 3
(`max≤255→TINYINT UNSIGNED; max≤65535→SMALLINT UNSIGNED;
max≤4294967295→INT UNSIGNED; else BIGINT UNSIGNED`). -/
def unsigned_tier (mx : ℚ) : String :=
  if mx ≤ 255 then "TINYINT UNSIGNED"
  else if mx ≤ 65535 then "SMALLINT UNSIGNED"
  else if mx ≤ 4294967295 then "INT UNSIGNED"
  else "BIGINT UNSIGNED"

/-- Modelled from the spec: the signed boundary table of §4.1 rule 3. -/
def signed_tier (mn mx : ℚ) : String :=
  if -128 ≤ mn ∧ mx ≤ 127 then "TINYINT"
  else if -32768 ≤ mn ∧ mx ≤ 32767 then "SMALLINT"
  else if -2147483648 ≤ mn ∧ mx ≤ 2147483647 then "INT"
  else "BIGINT"

/-! ### Helper lemmas about list minima and maxima -/

lemma le_foldl_min {a : ℚ} :
    ∀ (qs : List ℚ) (q : ℚ), a ≤ q → (∀ x ∈ qs, a ≤ x) → a ≤ qs.foldl min q := by
  intro qs
  induction qs with
  | nil => intro q hq _; simpa using hq
  | cons y ys ih =>
    intro q hq h
    simp only [List.foldl_cons]
    exact ih (min q y) (le_min hq (h y (List.mem_cons_self y ys)))
      (fun x hx => h x (List.mem_cons_of_mem y hx))

lemma foldl_max_le {a : ℚ} :
    ∀ (qs : List ℚ) (q : ℚ), q ≤ a → (∀ x ∈ qs, x ≤ a) → qs.foldl max q ≤ a := by
  intro qs
  induction qs with
  | nil => intro q hq _; simpa using hq
  | cons y ys ih =>
    intro q hq h
    simp only [List.foldl_cons]
    exact ih (max q y) (max_le hq (h y (List.mem_cons_self y ys)))
      (fun x hx => h x (List.mem_cons_of_mem y hx))

lemma seed_le_foldl_max : ∀ (qs : List ℚ) (q : ℚ), q ≤ qs.foldl max q := by
  intro qs
  induction qs with
  | nil => intro q; simp
  | cons y ys ih =>
    intro q
    simp only [List.foldl_cons]
    exact le_trans (le_max_left q y) (ih (max q y))

lemma mem_le_foldl_max {x : ℚ} :
    ∀ (qs : List ℚ) (q : ℚ), x ∈ qs → x ≤ qs.foldl max q := by
  intro qs
  induction qs with
  | nil => intro q hx; cases hx
  | cons y ys ih =>
    intro q hx
    simp only [List.foldl_cons]
    rcases List.mem_cons.mp hx with rfl | hx
    · exact le_trans (le_max_right q x) (seed_le_foldl_max ys (max q x))
    · exact ih (max q y) hx

lemma le_list_min {a : ℚ} {l : List ℚ} (hne : l ≠ []) (h : ∀ x ∈ l, a ≤ x) :
    a ≤ list_min l := by
  match l with
  | [] => exact absurd rfl hne
  | q :: qs =>
    exact le_foldl_min qs q (h q (List.mem_cons_self q qs))
      (fun x hx => h x (List.mem_cons_of_mem q hx))

lemma list_max_le {a : ℚ} {l : List ℚ} (hne : l ≠ []) (h : ∀ x ∈ l, x ≤ a) :
    list_max l ≤ a := by
  match l with
  | [] => exact absurd rfl hne
  | q :: qs =>
    exact foldl_max_le qs q (h q (List.mem_cons_self q qs))
      (fun x hx => h x (List.mem_cons_of_mem q hx))

lemma le_list_max {x : ℚ} {l : List ℚ} (h : x ∈ l) : x ≤ list_max l := by
  match l with
  | [] => cases h
  | q :: qs =>
    rcases List.mem_cons.mp h with rfl | hx
    · exact seed_le_foldl_max qs x
    · exact mem_le_foldl_max qs q hx

/-! ### Routing through `infer_mysql_type` -/

lemma dtype_ne_of_lookup_none {s : Series} (h : type_mapping.lookup s.dtype = none)
    {key : String} (hk : (type_mapping.lookup key).isSome = true) : s.dtype ≠ key := by
  intro he
  rw [← he, h] at hk
  cases hk

lemma infer_eq_numeric {s : Series} (h1 : type_mapping.lookup s.dtype = none)
    (h2 : s.numericDtype = true) : infer_mysql_type s = _infer_numeric_type s := by
  have e1 : s.dtype ≠ "datetime64[ns]" := dtype_ne_of_lookup_none h1 (by decide)
  have e2 : s.dtype ≠ "datetime64[ns, UTC]" := dtype_ne_of_lookup_none h1 (by decide)
  have e3 : s.dtype ≠ "timedelta64[ns]" := dtype_ne_of_lookup_none h1 (by decide)
  have e4 : s.dtype ≠ "date" := dtype_ne_of_lookup_none h1 (by decide)
  have e5 : s.dtype ≠ "object" := dtype_ne_of_lookup_none h1 (by decide)
  have e6 : s.dtype ≠ "string" := dtype_ne_of_lookup_none h1 (by decide)
  simp [infer_mysql_type, h1, h2, e1, e2, e3, e4, e5, e6]

lemma cell_int_in_shape {lo hi : ℚ} {c : Cell} (h : cell_int_in lo hi c = true) :
    ∃ q : ℚ, c = Cell.num q ∧ q.den = 1 ∧ lo ≤ q ∧ q ≤ hi := by
  cases c with
  | null => simp [cell_int_in] at h
  | str s => simp [cell_int_in] at h
  | num q =>
    simp only [cell_int_in, Bool.and_eq_true, beq_iff_eq, decide_eq_true_eq] at h
    exact ⟨q, rfl, h.1.1, h.1.2, h.2⟩

lemma dropna_of_no_null {l : List Cell} (h : ∀ c ∈ l, c.isNull = false) :
    dropna l = l :=
  List.filter_eq_self.mpr (fun c hc => by rw [h c hc]; rfl)

/-- On a series whose cells are all null-or-integral with at least one
numeric cell, `_infer_numeric_type` lands in the integral branch and picks
from the boundary tables according to the sign of the observed minimum. -/
lemma numeric_type_eq_tier {s : Series}
    (hshape : ∀ c ∈ s.values, c.isNull = true ∨ cell_int c = true)
    (hnum : ∃ c ∈ s.values, cell_isnum c = true) :
    _infer_numeric_type s =
      if 0 ≤ list_min (non_null_nums s) then unsigned_tier (list_max (non_null_nums s))
      else signed_tier (list_min (non_null_nums s)) (list_max (non_null_nums s)) := by
  obtain ⟨c0, hc0, hc0num⟩ := hnum
  have hnotallnull : s.values.all Cell.isNull = false := by
    apply List.all_eq_false.mpr
    refine ⟨c0, hc0, ?_⟩
    cases c0 with
    | num q => simp [Cell.isNull]
    | null => simp [cell_isnum] at hc0num
    | str t => simp [cell_isnum] at hc0num
  have hint : (non_null_nums s).all (fun q => q.den == 1) = true := by
    apply List.all_eq_true.mpr
    intro q hq
    obtain ⟨c, hc, rfl⟩ := List.mem_map.mp hq
    simp only [dropna] at hc
    have hcv : c ∈ s.values := (List.mem_filter.mp hc).1
    have hcnn : (!c.isNull) = true := (List.mem_filter.mp hc).2
    rcases hshape c hcv with hnull | hintc
    · rw [hnull] at hcnn; cases hcnn
    · cases c with
      | num q' => simpa [cell_int, cellNum] using hintc
      | null => simp [cell_int] at hintc
      | str t => simp [cell_int] at hintc
  simp only [_infer_numeric_type, hnotallnull, Bool.false_eq_true, if_false, hint,
    Bool.or_true, if_true, unsigned_tier, signed_tier]

/-- C1 counterexample: an `int8` column with values `[0, 1]` (no nulls, all
integral, within `[0, 255]`) is inferred as `TINYINT` via the direct dtype
mapping, and a `float64` column with the same values as `DOUBLE` — not
`TINYINT UNSIGNED` as the claim demands for every declared storage class. -/
theorem infer_direct_mapping_overrides_range :
    infer_mysql_type ⟨"int8", true, true, [Cell.num 0, Cell.num 1]⟩ = "TINYINT" ∧
    infer_mysql_type ⟨"float64", true, false, [Cell.num 0, Cell.num 1]⟩ = "DOUBLE" ∧
    ("TINYINT" : String) ≠ "TINYINT UNSIGNED" ∧ ("DOUBLE" : String) ≠ "TINYINT UNSIGNED" :=
  ⟨rfl, rfl, by decide, by decide⟩

/-- C1 (amended): for a numeric column that is *not* directly mapped by
`type_mapping` (so inference reaches `_infer_numeric_type`), with no nulls
and all values integral in `[0, 255]`, the inferred type is
`TINYINT UNSIGNED`; when the values are integral in `[0, 256]` with 256
attained, it is `SMALLINT UNSIGNED`.  Directly mapped dtypes (`int8` …
`uint64`, `float32`/`float64`, …) instead always get their mapped type. -/
theorem infer_tinyint_unsigned_range :
    (∀ s : Series, numeric_route s → s.values ≠ [] →
      s.values.all (cell_int_in 0 255) = true →
      infer_mysql_type s = "TINYINT UNSIGNED") ∧
    (∀ s : Series, numeric_route s →
      s.values.all (cell_int_in 0 256) = true →
      Cell.num 256 ∈ s.values →
      infer_mysql_type s = "SMALLINT UNSIGNED") := by
  constructor
  · intro s hr hne hall
    have hv : ∀ c ∈ s.values, ∃ q : ℚ, c = Cell.num q ∧ q.den = 1 ∧ 0 ≤ q ∧ q ≤ 255 :=
      fun c hc => cell_int_in_shape (List.all_eq_true.mp hall c hc)
    have hnonull : ∀ c ∈ s.values, c.isNull = false := by
      intro c hc
      obtain ⟨q, rfl, -⟩ := hv c hc
      rfl
    have hnn_eq : non_null_nums s = s.values.map cellNum := by
      unfold non_null_nums
      rw [dropna_of_no_null hnonull]
    have hne' : non_null_nums s ≠ [] := by
      rw [hnn_eq]
      exact fun h => hne (List.map_eq_nil_iff.mp h)
    have hbound : ∀ x ∈ non_null_nums s, 0 ≤ x ∧ x ≤ 255 := by
      intro x hx
      rw [hnn_eq] at hx
      obtain ⟨c, hc, rfl⟩ := List.mem_map.mp hx
      obtain ⟨q, rfl, -, h0, h255⟩ := hv c hc
      exact ⟨h0, h255⟩
    rw [infer_eq_numeric hr.1 hr.2,
      numeric_type_eq_tier
        (fun c hc => by
          obtain ⟨q, rfl, hden, -⟩ := hv c hc
          exact Or.inr (by simpa [cell_int] using hden))
        (by
          obtain ⟨c, hc⟩ := List.exists_mem_of_ne_nil s.values hne
          obtain ⟨q, rfl, -⟩ := hv c hc
          exact ⟨Cell.num q, hc, rfl⟩),
      if_pos (le_list_min hne' (fun x hx => (hbound x hx).1)),
      unsigned_tier, if_pos (list_max_le hne' (fun x hx => (hbound x hx).2))]
  · intro s hr hall hmem
    have hv : ∀ c ∈ s.values, ∃ q : ℚ, c = Cell.num q ∧ q.den = 1 ∧ 0 ≤ q ∧ q ≤ 256 :=
      fun c hc => cell_int_in_shape (List.all_eq_true.mp hall c hc)
    have hnonull : ∀ c ∈ s.values, c.isNull = false := by
      intro c hc
      obtain ⟨q, rfl, -⟩ := hv c hc
      rfl
    have hnn_eq : non_null_nums s = s.values.map cellNum := by
      unfold non_null_nums
      rw [dropna_of_no_null hnonull]
    have hne : s.values ≠ [] := List.ne_nil_of_mem hmem
    have hne' : non_null_nums s ≠ [] := by
      rw [hnn_eq]
      exact fun h => hne (List.map_eq_nil_iff.mp h)
    have hbound : ∀ x ∈ non_null_nums s, 0 ≤ x ∧ x ≤ 256 := by
      intro x hx
      rw [hnn_eq] at hx
      obtain ⟨c, hc, rfl⟩ := List.mem_map.mp hx
      obtain ⟨q, rfl, -, h0, h256⟩ := hv c hc
      exact ⟨h0, h256⟩
    have hmem' : (256 : ℚ) ∈ non_null_nums s := by
      rw [hnn_eq]
      exact List.mem_map.mpr ⟨Cell.num 256, hmem, rfl⟩
    rw [infer_eq_numeric hr.1 hr.2,
      numeric_type_eq_tier
        (fun c hc => by
          obtain ⟨q, rfl, hden, -⟩ := hv c hc
          exact Or.inr (by simpa [cell_int] using hden))
        ⟨Cell.num 256, hmem, rfl⟩,
      if_pos (le_list_min hne' (fun x hx => (hbound x hx).1)),
      unsigned_tier,
      if_neg (by
        push_neg
        exact lt_of_lt_of_le (by norm_num) (le_list_max hmem')),
      if_pos (list_max_le hne' (fun x hx => le_trans (hbound x hx).2 (by norm_num)))]

/-- C1 witness: a pandas nullable-integer column (dtype string `Int64`,
which is not a `type_mapping` key) with values `[0, 255]` receives
`TINYINT UNSIGNED`, and with values `[0, 256]` receives
`SMALLINT UNSIGNED`. -/
theorem infer_tinyint_unsigned_range_witness :
    infer_mysql_type ⟨"Int64", true, true, [Cell.num 0, Cell.num 255]⟩ = "TINYINT UNSIGNED" ∧
    infer_mysql_type ⟨"Int64", true, true, [Cell.num 0, Cell.num 256]⟩ = "SMALLINT UNSIGNED" :=
  ⟨infer_tinyint_unsigned_range.1 ⟨"Int64", true, true, [Cell.num 0, Cell.num 255]⟩
      (by constructor <;> decide) (by decide) (by decide),
    infer_tinyint_unsigned_range.2 ⟨"Int64", true, true, [Cell.num 0, Cell.num 256]⟩
      (by constructor <;> decide) (by decide) (by decide)⟩

/-- C2 counterexample: the identifier `"a  b"` (two consecutive spaces)
is rewritten by the code to `"a__b"` — one underscore per non-word
character — while collapsing each maximal run to a single underscore, as
the claim states, would give `"a_b"`. -/
theorem clean_column_run_collapse_cex :
    clean_column "a  b" = "a__b" ∧ collapse_runs "a  b" = "a_b" ∧
    clean_column "a  b" ≠ collapse_runs "a  b" := by
  refine ⟨by decide, by decide, by decide⟩

/-- C2 (amended): the normalization lowercases the identifier and replaces
each single non-word character with one underscore (so it is
length-preserving, and a run of k non-word characters becomes k
underscores, not one); on `"Order ID#"`, whose non-word runs all have
length one, the result is `"order_id_"` as documented. -/
theorem clean_column_charwise :
    (∀ col : String, (clean_column col).length = col.length) ∧
    clean_column "Order ID#" = "order_id_" := by
  constructor
  · intro col
    show (col.data.map _).length = col.data.length
    exact List.length_map _ _
  · decide

/-- C3: the string-length tiering of `_infer_string_type` is unreachable
from `infer_mysql_type`: because `'object'`/`'string'` are `type_mapping`
keys and that membership test runs first, every generic text/object column
is inferred as `TEXT`.  The tiering the claim describes is exactly what the
(dead) `_infer_string_type` itself computes: `VARCHAR(2)` for values
`['hi']`, `VARCHAR(0)` for all-empty strings, `TEXT` at max length 300,
`TEXT` for an all-null column. -/
theorem infer_string_type_unreachable :
    infer_mysql_type ⟨"object", false, false, [Cell.str "hi"]⟩ = "TEXT" ∧
    _infer_string_type ⟨"object", false, false, [Cell.str "hi"]⟩ = "VARCHAR(2)" ∧
    _infer_string_type ⟨"object", false, false, [Cell.str ""]⟩ = "VARCHAR(0)" ∧
    _infer_string_type
      ⟨"object", false, false,
        [Cell.str "hi", Cell.null, Cell.str (String.mk (List.replicate 300 'a'))]⟩ = "TEXT" ∧
    _infer_string_type ⟨"object", false, false, [Cell.null, Cell.null]⟩ = "TEXT" := by
  refine ⟨rfl, rfl, rfl, ?_, rfl⟩
  set_option maxRecDepth 4096 in decide

/-- C4: for a numeric column that reaches `_infer_numeric_type`
(`numeric_route`): an all-null column yields `DOUBLE`; a column whose
non-null values are all integral yields the boundary-table type, from the
unsigned table when the observed minimum is ≥ 0 and from the signed table
otherwise; a column with a non-zero fractional value (hence not an integer
dtype) yields `DOUBLE`; and the spec's scenario `[1, 2, 3.0, -1]` on a
generic numeric column yields `TINYINT`. -/
theorem infer_numeric_fallback :
    (∀ s : Series, numeric_route s → s.values.all Cell.isNull = true →
      infer_mysql_type s = "DOUBLE") ∧
    (∀ s : Series, numeric_route s →
      (∀ c ∈ s.values, c.isNull = true ∨ cell_int c = true) →
      (∃ c ∈ s.values, cell_isnum c = true) →
      infer_mysql_type s =
        if 0 ≤ list_min (non_null_nums s) then unsigned_tier (list_max (non_null_nums s))
        else signed_tier (list_min (non_null_nums s)) (list_max (non_null_nums s))) ∧
    (∀ s : Series, numeric_route s → s.integerDtype = false →
      (∀ c ∈ s.values, c.isNull = true ∨ cell_isnum c = true) →
      (∃ c ∈ s.values, cell_frac c = true) →
      infer_mysql_type s = "DOUBLE") ∧
    infer_mysql_type ⟨"Float64", true, false,
      [Cell.num 1, Cell.num 2, Cell.num 3, Cell.num (-1)]⟩ = "TINYINT" := by
  refine ⟨?_, ?_, ?_, rfl⟩
  · intro s hr hnull
    rw [infer_eq_numeric hr.1 hr.2]
    simp [_infer_numeric_type, hnull]
  · intro s hr hshape hnum
    rw [infer_eq_numeric hr.1 hr.2, numeric_type_eq_tier hshape hnum]
  · intro s hr hidt hshape hfrac
    rw [infer_eq_numeric hr.1 hr.2]
    obtain ⟨c0, hc0, hc0frac⟩ := hfrac
    obtain ⟨q0, rfl, hq0⟩ : ∃ q : ℚ, c0 = Cell.num q ∧ q.den ≠ 1 := by
      cases c0 with
      | num q => exact ⟨q, rfl, by simpa [cell_frac] using hc0frac⟩
      | null => simp [cell_frac] at hc0frac
      | str t => simp [cell_frac] at hc0frac
    have hnotallnull : s.values.all Cell.isNull = false :=
      List.all_eq_false.mpr ⟨Cell.num q0, hc0, by simp [Cell.isNull]⟩
    have hintfalse : (non_null_nums s).all (fun q => q.den == 1) = false := by
      apply List.all_eq_false.mpr
      refine ⟨q0, ?_, by simpa using hq0⟩
      exact List.mem_map.mpr
        ⟨Cell.num q0, List.mem_filter.mpr ⟨hc0, by simp [Cell.isNull]⟩, rfl⟩
    simp [_infer_numeric_type, hnotallnull, hidt, hintfalse]

/-- C4 witness: concrete columns exercising each branch — a nullable-float
column `[null, 5, 300]` gets `SMALLINT UNSIGNED` from the unsigned table,
`[1, 1/2]` (a fractional value) gets `DOUBLE`, and an all-null numeric
column gets `DOUBLE`. -/
theorem infer_numeric_fallback_witness :
    infer_mysql_type ⟨"Float64", true, false, [Cell.null, Cell.num 5, Cell.num 300]⟩ =
      "SMALLINT UNSIGNED" ∧
    infer_mysql_type ⟨"Float64", true, false, [Cell.num 1, Cell.num (mkRat 1 2)]⟩ = "DOUBLE" ∧
    infer_mysql_type ⟨"Float64", true, false, [Cell.null, Cell.null]⟩ = "DOUBLE" := by
  refine ⟨?_, ?_, ?_⟩
  · have h := infer_numeric_fallback.2.1
      ⟨"Float64", true, false, [Cell.null, Cell.num 5, Cell.num 300]⟩
      ⟨by decide, by decide⟩ (by decide) (by decide)
    rw [h]; decide
  · exact infer_numeric_fallback.2.2.1
      ⟨"Float64", true, false, [Cell.num 1, Cell.num (mkRat 1 2)]⟩
      ⟨by decide, by decide⟩ (by decide) (by decide) (by decide)
  · exact infer_numeric_fallback.1
      ⟨"Float64", true, false, [Cell.null, Cell.null]⟩ ⟨by decide, by decide⟩ (by decide)

lemma str_merge (x a b : String) : x ++ a ++ b = x ++ (a ++ b) :=
  String.append_assoc x a b

lemma str_merge_l (a b c : String) : a ++ (b ++ c) = a ++ b ++ c :=
  (String.append_assoc a b c).symm

/-- C9 counterexample: for table name `t` and a single `int8` column `a`,
the statement actually built by `create_table` differs from the claimed
bit-for-bit shape (the f-string carries a leading newline and literal
indentation). -/
theorem create_query_not_claimed_shape_cex :
    column_defs (create_table "t" ⟨[("a", ⟨"int8", true, true, [Cell.num 0]⟩)]⟩).1 =
      ["a TINYINT"] ∧
    (create_table "t" ⟨[("a", ⟨"int8", true, true, [Cell.num 0]⟩)]⟩).2 ≠
      create_query_claimed "t" ["a TINYINT"] := by
  exact ⟨rfl, by decide⟩

/-- C9 (amended): the generated statement contains exactly the documented
pieces in order — the `CREATE TABLE IF NOT EXISTS <name> (` header, the
comma-separated column definitions on their own line, and the
`) ENGINE=InnoDB ...` footer — but embedded in the triple-quoted f-string's
literal whitespace: a leading newline and 16 spaces before the header,
20 spaces before the definitions (4 more than the header line), 16 before
the footer, and a trailing newline with 12 spaces. -/
theorem create_query_vs_claimed :
    ∀ (name : String) (defs : List String),
      ∃ hd tl : String,
        create_query_claimed name defs =
          hd ++ "\n    " ++ String.intercalate ", " defs ++ "\n" ++ tl ∧
        create_query name defs =
          "\n                " ++ hd ++ "\n                    " ++
            String.intercalate ", " defs ++ "\n                " ++ tl ++ "\n            " := by
  intro name defs
  refine ⟨"CREATE TABLE IF NOT EXISTS " ++ name ++ " (",
    ") ENGINE=InnoDB DEFAULT CHARSET=utf8mb4 COLLATE=utf8mb4_unicode_ci", ?_, ?_⟩
  · rw [create_query_claimed,
      str_merge ("CREATE TABLE IF NOT EXISTS " ++ name) " (" "\n    ",
      str_merge _ "\n" ") ENGINE=InnoDB DEFAULT CHARSET=utf8mb4 COLLATE=utf8mb4_unicode_ci"]
    rfl
  · rw [create_query,
      str_merge_l "\n                " ("CREATE TABLE IF NOT EXISTS " ++ name) " (",
      str_merge_l "\n                " "CREATE TABLE IF NOT EXISTS " name,
      str_merge _ " (" "\n                    ",
      str_merge _ "\n                "
        ") ENGINE=InnoDB DEFAULT CHARSET=utf8mb4 COLLATE=utf8mb4_unicode_ci",
      str_merge _
        ("\n                " ++ ") ENGINE=InnoDB DEFAULT CHARSET=utf8mb4 COLLATE=utf8mb4_unicode_ci")
        "\n            "]
    rfl

/-- C10 counterexample: after `create_table`, the caller's DataFrame no
longer carries its original column identifiers — `"Order ID#"` has been
rewritten in place to `"order_id_"` by the `df.columns = clean_columns`
assignment. -/
theorem create_table_renames_columns_cex :
    (create_table "t" ⟨[("Order ID#", ⟨"object", false, false, [Cell.str "x"]⟩)]⟩).1.cols.map
        Prod.fst ≠
      [("Order ID#", (⟨"object", false, false, [Cell.str "x"]⟩ : Series))].map Prod.fst := by
  decide

/-- C10 (amended): `create_table` leaves every cell value (each column's
series) unchanged, but rewrites the column identifiers in place to their
normalized form `clean_column`; type inference itself is a pure function of
the column and writes nothing. -/
theorem create_table_preserves_values :
    ∀ (name : String) (df : DataFrame),
      (create_table name df).1.cols.map Prod.snd = df.cols.map Prod.snd ∧
      (create_table name df).1.cols.map Prod.fst = df.cols.map (fun p => clean_column p.1) := by
  intro name df
  constructor <;> simp [create_table, List.map_map]

/-! ### Batch partition lemmas -/

lemma batch_count_succ {N B : ℕ} (hN : 0 < N) (hB : 0 < B) :
    (N + B - 1) / B = (N - B + B - 1) / B + 1 := by
  rcases le_or_lt N B with h | h
  · have h0 : N - B = 0 := by omega
    have e1 : N + B - 1 = (N - 1) + B := by omega
    rw [h0, e1, Nat.add_div_right _ hB, Nat.div_eq_of_lt (by omega),
      Nat.div_eq_of_lt (by omega)]
  · have e1 : N + B - 1 = (N - B + B - 1) + B := by omega
    rw [e1, Nat.add_div_right _ hB]

lemma batch_starts_succ {N B : ℕ} (hN : 0 < N) (hB : 0 < B) :
    batch_starts N B = 0 :: (batch_starts (N - B) B).map (· + B) := by
  unfold batch_starts
  rw [batch_count_succ hN hB, List.range_succ_eq_map]
  simp only [List.map_cons, Nat.zero_mul, List.map_map]
  congr 1
  apply List.map_congr_left
  intro j hj
  simp [Function.comp, Nat.succ_mul]

lemma batches_nil {α : Type} {B : ℕ} (hB : 0 < B) : batches B ([] : List α) = [] := by
  unfold batches batch_starts
  rw [List.length_nil, Nat.zero_add, Nat.div_eq_of_lt (by omega)]
  rfl

lemma batches_cons {α : Type} {B : ℕ} (hB : 0 < B) {rows : List α} (h : rows ≠ []) :
    batches B rows = rows.take B :: batches B (rows.drop B) := by
  unfold batches
  rw [batch_starts_succ (List.length_pos.mpr h) hB]
  simp only [List.map_cons, List.drop_zero, List.map_map, List.length_drop]
  congr 1
  apply List.map_congr_left
  intro j hj
  simp [Function.comp, List.drop_drop, Nat.add_comm]

lemma join_batches_aux {α : Type} {B : ℕ} (hB : 0 < B) :
    ∀ (n : ℕ) (rows : List α), rows.length ≤ n → (batches B rows).flatten = rows := by
  intro n
  induction n with
  | zero =>
    intro rows h
    rw [List.eq_nil_of_length_eq_zero (Nat.le_zero.mp h), batches_nil hB]
    rfl
  | succ n ih =>
    intro rows h
    rcases eq_or_ne rows [] with rfl | hne
    · rw [batches_nil hB]; rfl
    · rw [batches_cons hB hne, List.flatten_cons,
        ih (rows.drop B) (by
          rw [List.length_drop]
          have : 0 < rows.length := List.length_pos.mpr hne
          omega),
        List.take_append_drop]

/-! ### Value preparation and batch loop lemmas -/

lemma prepare_row_ok {row : List PyVal} (h : row_ok row) :
    prepare_row row = Except.ok (row.map prep) := by
  induction row with
  | nil => rfl
  | cons v vs ih =>
    have hv : coerces v = true := h v (List.mem_cons_self v vs)
    have hvs : row_ok vs := fun w hw => h w (List.mem_cons_of_mem v hw)
    unfold prepare_row
    unfold coerces at hv
    rcases he : _prepare_value v with e | w
    · rw [he] at hv; cases hv
    · rw [ih hvs]
      simp [prep, he]

lemma prepare_batch_ok {batch : List (List PyVal)} (h : ∀ r ∈ batch, row_ok r) :
    prepare_batch batch = Except.ok (batch.map (fun r => r.map prep)) := by
  induction batch with
  | nil => rfl
  | cons r rs ih =>
    simp only [prepare_batch]
    rw [prepare_row_ok (h r (List.mem_cons_self r rs)),
      ih (fun w hw => h w (List.mem_cons_of_mem r hw))]
    rfl

lemma rows_ok_batch {rows : List (List PyVal)} (h : rows_ok rows) (i B : ℕ) :
    ∀ r ∈ (rows.drop i).take B, row_ok r :=
  fun r hr => h r (List.mem_of_mem_drop (List.mem_of_mem_take hr))

/-- The loop with no backend failure and no coercion failure: every batch
is attempted and committed, and one progress value is emitted per batch. -/
lemma run_batches_all_ok (fails : ℕ → Option String) (rows : List (List PyVal)) (N B : ℕ)
    (hrows : rows_ok rows) :
    ∀ starts : List ℕ, (∀ i ∈ starts, fails i = none) →
      run_batches fails rows N B starts =
        Except.ok (none, starts,
          starts.map (fun i => ((rows.drop i).take B).map (fun r => r.map prep)),
          starts.map (batch_progress N B)) := by
  intro starts
  induction starts with
  | nil => intro _; rfl
  | cons i rest ih =>
    intro hf
    simp only [run_batches]
    rw [prepare_batch_ok (rows_ok_batch hrows i B), hf i (List.mem_cons_self i rest),
      ih (fun j hj => hf j (List.mem_cons_of_mem i hj))]
    rfl

/-- The loop when the batch starting at `k` raises a backend error and all
earlier batches succeed: the batches before `k` are committed, batch `k` is
attempted but not committed, the diagnostic is produced and nothing after
`k` is attempted. -/
lemma run_batches_fail (fails : ℕ → Option String) (rows : List (List PyVal)) (N B : ℕ)
    {k : ℕ} {e : String} (hrows : rows_ok rows) (hk : fails k = some e) :
    ∀ (s1 : List ℕ) (s2 : List ℕ), (∀ j ∈ s1, fails j = none) →
      run_batches fails rows N B (s1 ++ k :: s2) =
        Except.ok (some ("⚠️ Data Insertion Error: " ++ e), s1 ++ [k],
          s1.map (fun i => ((rows.drop i).take B).map (fun r => r.map prep)),
          s1.map (batch_progress N B)) := by
  intro s1
  induction s1 with
  | nil =>
    intro s2 _
    rw [List.nil_append]
    simp only [run_batches]
    rw [prepare_batch_ok (rows_ok_batch hrows k B), hk]
    rfl
  | cons j s1' ih =>
    intro s2 hf
    rw [List.cons_append]
    simp only [run_batches]
    rw [prepare_batch_ok (rows_ok_batch hrows j B), hf j (List.mem_cons_self j s1'),
      ih s2 (fun j' hj' => hf j' (List.mem_cons_of_mem j hj'))]
    rfl

/-- When every cell coerces, the loop never escapes as an uncaught
exception, whatever the backend does. -/
lemma run_batches_isOk (fails : ℕ → Option String) (rows : List (List PyVal)) (N B : ℕ)
    (hrows : rows_ok rows) :
    ∀ starts : List ℕ, ∃ out, run_batches fails rows N B starts = Except.ok out := by
  intro starts
  induction starts with
  | nil => exact ⟨_, rfl⟩
  | cons i rest ih =>
    obtain ⟨out, hout⟩ := ih
    simp only [run_batches]
    rw [prepare_batch_ok (rows_ok_batch hrows i B)]
    rcases hf : fails i with _ | e
    · rw [hout]
      exact ⟨_, rfl⟩
    · exact ⟨_, rfl⟩

lemma batch_progress_mono {N B : ℕ} (hN : (0 : ℚ) < (N : ℚ)) {i j : ℕ} (hij : i ≤ j) :
    batch_progress N B i ≤ batch_progress N B j := by
  unfold batch_progress
  refine min_le_min le_rfl ?_
  have hle : ((i + B : ℕ) : ℚ) ≤ ((j + B : ℕ) : ℚ) := by
    exact_mod_cast Nat.add_le_add_right hij B
  exact div_le_div_of_nonneg_right hle hN.le

lemma batch_progress_bounds {N B i : ℕ} :
    0 ≤ batch_progress N B i ∧ batch_progress N B i ≤ 1 := by
  unfold batch_progress
  exact ⟨le_min zero_le_one (div_nonneg (by positivity) (by positivity)), min_le_left _ _⟩

/-- C5: for a nonempty table loaded without backend or coercion failure,
the progress value emitted after the batch starting at row `i` is
`min(1.0, (i + 1000) / total_rows)`; the emitted sequence is monotonically
non-decreasing, stays in `[0, 1]`, and after the final batch a last
emission forces progress to exactly `1.0`; for 2500 rows the emissions are
`0.4, 0.8, 1.0` followed by the forced `1.0`. -/
theorem insert_progress :
    ∀ (fails : ℕ → Option String) (rows : List (List PyVal)),
      rows ≠ [] → (∀ i ∈ batch_starts rows.length 1000, fails i = none) → rows_ok rows →
      ∃ t : InsertTrace, insert_data fails rows = Except.ok t ∧ t.success = true ∧
        t.progressCalls =
          (batch_starts rows.length 1000).map (batch_progress rows.length 1000) ++ [1] ∧
        t.progressCalls.Pairwise (· ≤ ·) ∧
        (∀ p ∈ t.progressCalls, 0 ≤ p ∧ p ≤ 1) ∧
        t.progressCalls.getLast? = some 1 ∧
        (rows.length = 2500 → t.progressCalls = [2 / 5, 4 / 5, 1, 1]) := by
  intro fails rows hne hf hrows
  have hN : (0 : ℚ) < (rows.length : ℚ) := by
    exact_mod_cast List.length_pos.mpr hne
  have h := run_batches_all_ok fails rows rows.length 1000 hrows (batch_starts rows.length 1000) hf
  refine ⟨⟨batch_starts rows.length 1000,
      (batch_starts rows.length 1000).map
        (fun i => ((rows.drop i).take 1000).map (fun r => r.map prep)),
      (batch_starts rows.length 1000).map (batch_progress rows.length 1000) ++ [1],
      none, true⟩,
    by unfold insert_data; rw [h], rfl, rfl, ?_, ?_, ?_, ?_⟩
  · rw [List.pairwise_append]
    refine ⟨?_, List.pairwise_singleton _ _, ?_⟩
    · simp only [batch_starts, List.map_map]
      exact (List.pairwise_lt_range _).map _
        (fun a b hab =>
          batch_progress_mono hN (Nat.mul_le_mul_right 1000 (Nat.le_of_lt hab)))
    · intro a ha b hb
      simp only [List.mem_singleton] at hb
      subst hb
      obtain ⟨i, -, rfl⟩ := List.mem_map.mp ha
      exact batch_progress_bounds.2
  · intro p hp
    rcases List.mem_append.mp hp with hp | hp
    · obtain ⟨i, -, rfl⟩ := List.mem_map.mp hp
      exact batch_progress_bounds
    · simp only [List.mem_singleton] at hp
      subst hp
      exact ⟨zero_le_one, le_refl 1⟩
  · show ((batch_starts rows.length 1000).map (batch_progress rows.length 1000)
      ++ ([1] : List ℚ)).getLast? = some (1 : ℚ)
    rw [List.getLast?_concat]
  · intro h2500
    have hs : batch_starts rows.length 1000 = [0, 1000, 2000] := by
      rw [h2500]; decide
    rw [hs, h2500]
    simp only [List.map_cons, List.map_nil, batch_progress]
    norm_num [min_def]

/-- C5 witness: a two-row table loads as a single batch; the load succeeds
and the emitted progress is the per-batch value followed by the forced
`1.0`. -/
theorem insert_progress_witness :
    ∃ t : InsertTrace,
      insert_data (fun _ => Option.none) [[PyVal.pyint 1], [PyVal.pyint 2]] = Except.ok t ∧
      t.success = true ∧
      t.progressCalls =
        (batch_starts ([[PyVal.pyint 1], [PyVal.pyint 2]] : List (List PyVal)).length 1000).map
          (batch_progress ([[PyVal.pyint 1], [PyVal.pyint 2]] : List (List PyVal)).length 1000)
          ++ [1] ∧
      t.progressCalls.Pairwise (· ≤ ·) ∧
      (∀ p ∈ t.progressCalls, 0 ≤ p ∧ p ≤ 1) ∧
      t.progressCalls.getLast? = some 1 ∧
      (([[PyVal.pyint 1], [PyVal.pyint 2]] : List (List PyVal)).length = 2500 →
        t.progressCalls = [2 / 5, 4 / 5, 1, 1]) :=
  insert_progress (fun _ => Option.none) [[PyVal.pyint 1], [PyVal.pyint 2]]
    (List.cons_ne_nil _ _) (by decide) (by decide)

/-- C6: the batches are the contiguous 1000-row slices of the table, whose
concatenation in submission order is exactly the original row sequence (no
gaps, overlaps or reordering) for every batch width `B > 0`; on a
failure-free load `insert_data` attempts exactly those batches and commits
their prepared forms in order; for 2500 rows the batch sizes are
1000, 1000, 500. -/
theorem batches_partition :
    (∀ (α : Type) (B : ℕ), 0 < B → ∀ rows : List α, (batches B rows).flatten = rows) ∧
    (∀ (fails : ℕ → Option String) (rows : List (List PyVal)),
      (∀ i ∈ batch_starts rows.length 1000, fails i = none) → rows_ok rows →
      ∃ t : InsertTrace, insert_data fails rows = Except.ok t ∧
        t.attempted = batch_starts rows.length 1000 ∧
        t.committed = (batches 1000 rows).map (fun b => b.map (fun r => r.map prep))) ∧
    (batches 1000 (List.range 2500)).map List.length = [1000, 1000, 500] := by
  refine ⟨?_, ?_, ?_⟩
  · intro α B hB rows
    exact join_batches_aux hB rows.length rows le_rfl
  · intro fails rows hf hrows
    have h := run_batches_all_ok fails rows rows.length 1000 hrows (batch_starts rows.length 1000) hf
    refine ⟨⟨batch_starts rows.length 1000,
        (batch_starts rows.length 1000).map
          (fun i => ((rows.drop i).take 1000).map (fun r => r.map prep)),
        (batch_starts rows.length 1000).map (batch_progress rows.length 1000) ++ [1],
        none, true⟩,
      by unfold insert_data; rw [h], rfl, ?_⟩
    simp [batches, List.map_map]
  · have hs : batch_starts 2500 1000 = [0, 1000, 2000] := by decide
    simp [batches, List.length_range, hs, List.length_take, List.length_drop]

/-- C6 witness: the partition property at width 2 on a three-row table, and
the `insert_data` tie-in on a one-row table. -/
theorem batches_partition_witness :
    (batches 2 [[PyVal.pyint 5], [PyVal.pyint 6], [PyVal.pyint 7]]).flatten =
      [[PyVal.pyint 5], [PyVal.pyint 6], [PyVal.pyint 7]] ∧
    ∃ t : InsertTrace,
      insert_data (fun _ => Option.none) [[PyVal.pyint 5]] = Except.ok t ∧
      t.attempted = batch_starts ([[PyVal.pyint 5]] : List (List PyVal)).length 1000 ∧
      t.committed =
        (batches 1000 [[PyVal.pyint 5]]).map (fun b => b.map (fun r => r.map prep)) :=
  ⟨batches_partition.1 (List PyVal) 2 (by decide)
      [[PyVal.pyint 5], [PyVal.pyint 6], [PyVal.pyint 7]],
    batches_partition.2.1 (fun _ => Option.none) [[PyVal.pyint 5]] (by decide) (by decide)⟩

/-- C7: if the backend raises a `mysql.connector.Error` for the batch
starting at `k` while every earlier batch commits, then `insert_data`
attempts exactly the batches up to and including `k` (none after `k`),
returns `False` with the `st.error` diagnostic, and the committed state
still holds exactly the batches before `k` — no compensating rollback. -/
theorem insert_aborts_on_batch_failure :
    ∀ (fails : ℕ → Option String) (rows : List (List PyVal)) (s1 s2 : List ℕ)
      (k : ℕ) (e : String),
      batch_starts rows.length 1000 = s1 ++ k :: s2 →
      (∀ j ∈ s1, fails j = none) → fails k = some e → rows_ok rows →
      insert_data fails rows = Except.ok
        ⟨s1 ++ [k],
         s1.map (fun i => ((rows.drop i).take 1000).map (fun r => r.map prep)),
         s1.map (batch_progress rows.length 1000),
         some ("⚠️ Data Insertion Error: " ++ e), false⟩ := by
  intro fails rows s1 s2 k e hsplit hpre hk hrows
  unfold insert_data
  rw [hsplit, run_batches_fail fails rows rows.length 1000 hrows hk s1 s2 hpre]

/-- C7 witness: 2500 identical rows with the second batch (start index
1000) failing: batch one commits and its progress `0.4` is emitted, batch
two is attempted but not committed, batch three (start 2000) is never
attempted, and the call reports failure with the diagnostic. -/
theorem insert_aborts_on_batch_failure_witness :
    insert_data (fun i => if i = 1000 then some "db gone" else Option.none)
        (List.replicate 2500 [PyVal.pyint 7]) =
      Except.ok
        ⟨[0] ++ [1000],
         [0].map (fun i =>
           (((List.replicate 2500 [PyVal.pyint 7]).drop i).take 1000).map
             (fun r => r.map prep)),
         [0].map (batch_progress (List.replicate 2500 [PyVal.pyint 7]).length 1000),
         some ("⚠️ Data Insertion Error: " ++ "db gone"), false⟩ := by
  apply insert_aborts_on_batch_failure _ _ [0] [2000] 1000 "db gone"
  · rw [List.length_replicate]
    decide
  · intro j hj
    simp only [List.mem_singleton] at hj
    subst hj
    rfl
  · rfl
  · intro r hr
    rw [List.eq_of_mem_replicate hr]
    decide

/-- C8 counterexample: a row containing a Python list cell makes
`pd.isna` raise a `ValueError`, which the `except Error` clause (scoped to
`mysql.connector.Error`) does not catch: the fault escapes `insert_data`
uncaught instead of being converted into a diagnostic-plus-flag. -/
theorem insert_uncaught_coercion_cex :
    insert_data (fun _ => Option.none) [[PyVal.pylist [PyVal.pyint 1, PyVal.pyint 2]]] =
      Except.error
        "ValueError: The truth value of an array with more than one element is ambiguous. Use a.any() or a.all()" :=
  rfl

/-- C8 (amended): whenever every cell normalizes, `insert_data` returns
through its boolean-flag interface — backend errors are converted into a
diagnostic string plus `False` and nothing propagates uncaught; a cell
whose normalization raises (a non-`mysql.connector.Error` fault) instead
escapes the operation boundary. -/
theorem insert_backend_errors_flagged :
    ∀ (fails : ℕ → Option String) (rows : List (List PyVal)), rows_ok rows →
      ∃ t : InsertTrace, insert_data fails rows = Except.ok t ∧
        (t.success = false → (t.diagnostic).isSome = true) := by
  intro fails rows hrows
  obtain ⟨out, hout⟩ := run_batches_isOk fails rows rows.length 1000 hrows (batch_starts rows.length 1000)
  obtain ⟨diag, att, comm, progs⟩ := out
  cases diag with
  | none =>
    refine ⟨⟨att, comm, progs ++ [1], none, true⟩, by unfold insert_data; rw [hout], ?_⟩
    intro hfalse
    cases hfalse
  | some d =>
    exact ⟨⟨att, comm, progs, some d, false⟩, by unfold insert_data; rw [hout], fun _ => rfl⟩

/-- C8 witness: a one-row load whose only batch fails at the backend is
converted into a caller-visible result with `success = false` and a
diagnostic present. -/
theorem insert_backend_errors_flagged_witness :
    ∃ t : InsertTrace,
      insert_data (fun i => if i = 0 then some "server gone" else Option.none)
          [[PyVal.pyint 1]] = Except.ok t ∧
        (t.success = false → (t.diagnostic).isSome = true) :=
  insert_backend_errors_flagged _ _ (by decide)

end MySQLUpload
